import Mathlib

/-!
# Verification of the structural mechanics engine

Shallow embedding of `src/copilot/structural.py`: the `Material` value
object, the `BeamAnalyzer` operations (simply supported point load,
cantilever, uniformly distributed load), and the `ColumnAnalyzer` Euler
buckling operation, together with theorems settling the specified
properties.

Floating-point arithmetic in the source is modelled as exact rational
arithmetic (`ℚ`) for the beam operations.  Python raises
`ZeroDivisionError` on division of a float by `0.0`; a division whose
divisor may be zero is therefore modelled by `pyDiv`, which returns
`none` exactly when the divisor is zero, and the beam operations return
`Option BeamAnalysisResult`, with `none` marking the raised fault.
Divisions by nonzero constants (`/12`, `/8`, `/2`, `/1e6`, `*1e9`)
cannot fault and are kept as plain division.
-/

namespace Copilot

/-- `Material` dataclass of `structural.py`: name, Young's modulus (GPa),
yield strength (MPa), density (kg/m³), cost per kg (USD/kg). -/
structure Material where
  name : String
  youngs_modulus : ℚ
  yield_strength : ℚ
  density : ℚ
  cost_per_kg : ℚ
deriving DecidableEq

/-- `Material.steel_a36`: standard structural steel. -/
def Material.steel_a36 : Material :=
  ⟨"Steel A36", 200, 250, 7850, 3/2⟩

/-- `Material.aluminum_6061`: aluminum alloy. -/
def Material.aluminum_6061 : Material :=
  ⟨"Aluminum 6061-T6", 69, 276, 2700, 7/2⟩

/-- `BeamAnalysisResult` dataclass: deflection (mm), stress (MPa),
moment (N·m), shear (N), safety factor, weight (kg), cost (USD). -/
structure BeamAnalysisResult where
  max_deflection : ℚ
  max_stress : ℚ
  max_moment : ℚ
  max_shear : ℚ
  safety_factor : ℚ
  weight : ℚ
  cost : ℚ
deriving DecidableEq

/-- `BeamAnalysisResult.is_safe(min_safety_factor=1.5)`.  The source's
default argument value `1.5` is modelled by `is_safe_default` below. -/
def BeamAnalysisResult.is_safe (r : BeamAnalysisResult)
    (min_safety_factor : ℚ) : Bool :=
  decide (min_safety_factor ≤ r.safety_factor)

/-- The call `r.is_safe()` of the source, using the default threshold 1.5. -/
def BeamAnalysisResult.is_safe_default (r : BeamAnalysisResult) : Bool :=
  r.is_safe (3/2)

/-- Python float division: `x / y` raises `ZeroDivisionError` when
`y == 0.0`, modelled as `none`. -/
def pyDiv (x y : ℚ) : Option ℚ :=
  if y = 0 then none else some (x / y)

/-- `BeamAnalyzer`: bound to one material at construction. -/
structure BeamAnalyzer where
  material : Material

/-- `BeamAnalyzer.simply_supported_point_load(length, load, load_position,
width, height)` of `structural.py`, line for line. -/
def BeamAnalyzer.simply_supported_point_load (self : BeamAnalyzer)
    (length load load_position width height : ℚ) :
    Option BeamAnalysisResult := do
  let I := (width * height ^ 3) / 12
  let a := load_position
  let b := length - load_position
  let max_moment ← pyDiv (load * a * b) length
  let E := self.material.youngs_modulus * 1000000000
  let max_deflection ←
    if |a - b| < 1/100 then
      pyDiv (load * length ^ 3) (48 * E * I)
    else
      pyDiv (load * a ^ 2 * b ^ 2) (3 * E * I * length)
  let max_deflection_mm := max_deflection * 1000
  let c := height / 2
  let max_stress_pa ← pyDiv (max_moment * c) I
  let max_stress_mpa := max_stress_pa / 1000000
  let shear_left ← pyDiv (load * b) length
  let shear_right ← pyDiv (load * a) length
  let max_shear := max shear_left shear_right
  let safety_factor ← pyDiv self.material.yield_strength max_stress_mpa
  let volume := length * width * height
  let weight := volume * self.material.density
  let cost := weight * self.material.cost_per_kg
  return ⟨max_deflection_mm, max_stress_mpa, max_moment, max_shear,
          safety_factor, weight, cost⟩

/-- `BeamAnalyzer.cantilever_beam(length, load, width, height)`. -/
def BeamAnalyzer.cantilever_beam (self : BeamAnalyzer)
    (length load width height : ℚ) : Option BeamAnalysisResult := do
  let I := (width * height ^ 3) / 12
  let max_moment := load * length
  let E := self.material.youngs_modulus * 1000000000
  let max_deflection ← pyDiv (load * length ^ 3) (3 * E * I)
  let max_deflection_mm := max_deflection * 1000
  let c := height / 2
  let max_stress_pa ← pyDiv (max_moment * c) I
  let max_stress_mpa := max_stress_pa / 1000000
  let max_shear := load
  let safety_factor ← pyDiv self.material.yield_strength max_stress_mpa
  let volume := length * width * height
  let weight := volume * self.material.density
  let cost := weight * self.material.cost_per_kg
  return ⟨max_deflection_mm, max_stress_mpa, max_moment, max_shear,
          safety_factor, weight, cost⟩

/-- `BeamAnalyzer.distributed_load_beam(length, load_per_length, width,
height)`. -/
def BeamAnalyzer.distributed_load_beam (self : BeamAnalyzer)
    (length load_per_length width height : ℚ) :
    Option BeamAnalysisResult := do
  let I := (width * height ^ 3) / 12
  let total_load := load_per_length * length
  let max_moment := (load_per_length * length ^ 2) / 8
  let E := self.material.youngs_modulus * 1000000000
  let max_deflection ← pyDiv (5 * load_per_length * length ^ 4) (384 * E * I)
  let max_deflection_mm := max_deflection * 1000
  let c := height / 2
  let max_stress_pa ← pyDiv (max_moment * c) I
  let max_stress_mpa := max_stress_pa / 1000000
  let max_shear := total_load / 2
  let safety_factor ← pyDiv self.material.yield_strength max_stress_mpa
  let volume := length * width * height
  let weight := volume * self.material.density
  let cost := weight * self.material.cost_per_kg
  return ⟨max_deflection_mm, max_stress_mpa, max_moment, max_shear,
          safety_factor, weight, cost⟩

/-! ## Basic lemmas -/

/-- Characterisation of a non-faulting Python division. -/
theorem pyDiv_eq_some {x y v : ℚ} : pyDiv x y = some v ↔ y ≠ 0 ∧ x / y = v := by
  unfold pyDiv
  split <;> simp_all

/-! ## Claim theorems: beam operations -/

/-- C1: for positive geometry, any result returned by
`simply_supported_point_load` has moment `P·a·b/L`, deflection (mm)
`P·L³/(48·E·I)·1000` when `|a−b| < 0.01` and `P·a²·b²/(3·E·I·L)·1000`
otherwise, shear `max(P·b/L, P·a/L)`, stress `M·(h/2)/I` converted
Pa→MPa, and safety factor `yield_strength / stress`. -/
theorem simply_supported_point_load_spec (B : BeamAnalyzer)
    (length load load_position width height : ℚ)
    (hl : 0 < length) (hw : 0 < width) (hh : 0 < height)
    (r : BeamAnalysisResult)
    (h : B.simply_supported_point_load length load load_position width height = some r) :
    r.max_moment = load * load_position * (length - load_position) / length ∧
    r.max_deflection = (if |load_position - (length - load_position)| < 1/100 then
        load * length ^ 3 /
          (48 * (B.material.youngs_modulus * 1000000000) * (width * height ^ 3 / 12))
      else
        load * load_position ^ 2 * (length - load_position) ^ 2 /
          (3 * (B.material.youngs_modulus * 1000000000) * (width * height ^ 3 / 12) *
            length)) * 1000 ∧
    r.max_shear = max (load * (length - load_position) / length)
      (load * load_position / length) ∧
    r.max_stress = r.max_moment * (height / 2) / (width * height ^ 3 / 12) / 1000000 ∧
    r.safety_factor = B.material.yield_strength / r.max_stress := by
  by_cases hc : |load_position - (length - load_position)| < 1/100 <;>
    [rw [if_pos hc]; rw [if_neg hc]] <;>
    simp only [BeamAnalyzer.simply_supported_point_load, bind, hc,
      if_true, if_false, ite_true, ite_false, Option.bind_eq_some, pyDiv_eq_some] at h <;>
    obtain ⟨m, ⟨hlen, hm⟩, d, ⟨hden, hd⟩, sp, ⟨hI, hsp⟩, s1, ⟨-, hs1⟩, s2, ⟨-, hs2⟩,
      sf, ⟨hst, hsf⟩, hr⟩ := h <;>
    subst hm hd hsp hs1 hs2 hsf <;>
    cases hr <;>
    exact ⟨rfl, rfl, rfl, rfl, rfl⟩

/-- Witness for C1: the steel scenario, load centered. -/
theorem simply_supported_point_load_spec_witness :
    (BeamAnalysisResult.mk (1/5) 6 500 500 (125/3) (157/2) (471/4)).max_moment =
        1000 * 1 * (2 - 1) / 2 ∧
    (BeamAnalysisResult.mk (1/5) 6 500 500 (125/3) (157/2) (471/4)).max_deflection =
      (if |(1 : ℚ) - (2 - 1)| < 1/100 then
        1000 * 2 ^ 3 / (48 * ((200 : ℚ) * 1000000000) * ((1/20) * (1/10) ^ 3 / 12))
      else
        1000 * 1 ^ 2 * ((2 : ℚ) - 1) ^ 2 /
          (3 * ((200 : ℚ) * 1000000000) * ((1/20) * (1/10) ^ 3 / 12) * 2)) * 1000 ∧
    (BeamAnalysisResult.mk (1/5) 6 500 500 (125/3) (157/2) (471/4)).max_shear =
      max (1000 * ((2 : ℚ) - 1) / 2) (1000 * 1 / 2) ∧
    (BeamAnalysisResult.mk (1/5) 6 500 500 (125/3) (157/2) (471/4)).max_stress =
      (BeamAnalysisResult.mk (1/5) 6 500 500 (125/3) (157/2) (471/4)).max_moment *
        ((1/10) / 2) / ((1/20) * (1/10) ^ 3 / 12) / 1000000 ∧
    (BeamAnalysisResult.mk (1/5) 6 500 500 (125/3) (157/2) (471/4)).safety_factor =
      250 / (BeamAnalysisResult.mk (1/5) 6 500 500 (125/3) (157/2) (471/4)).max_stress :=
  simply_supported_point_load_spec ⟨Material.steel_a36⟩ 2 1000 1 (1/20) (1/10)
    (by norm_num) (by norm_num) (by norm_num) _
    (by norm_num [BeamAnalyzer.simply_supported_point_load, pyDiv, Material.steel_a36,
      Option.bind])

/-- C4: any result returned by `cantilever_beam` has moment `P·L`,
deflection (mm) `P·L³/(3·E·I)·1000`, shear `P`, stress `M·(h/2)/I`
converted Pa→MPa, and safety factor `yield_strength / stress`. -/
theorem cantilever_beam_spec (B : BeamAnalyzer)
    (length load width height : ℚ)
    (hl : 0 < length) (hw : 0 < width) (hh : 0 < height)
    (r : BeamAnalysisResult)
    (h : B.cantilever_beam length load width height = some r) :
    r.max_moment = load * length ∧
    r.max_deflection = load * length ^ 3 /
      (3 * (B.material.youngs_modulus * 1000000000) * (width * height ^ 3 / 12)) * 1000 ∧
    r.max_shear = load ∧
    r.max_stress = r.max_moment * (height / 2) / (width * height ^ 3 / 12) / 1000000 ∧
    r.safety_factor = B.material.yield_strength / r.max_stress := by
  simp only [BeamAnalyzer.cantilever_beam, bind, Option.bind_eq_some, pyDiv_eq_some] at h
  obtain ⟨d, ⟨hden, hd⟩, sp, ⟨hI, hsp⟩, sf, ⟨hst, hsf⟩, hr⟩ := h
  subst hd hsp hsf
  cases hr
  exact ⟨rfl, rfl, rfl, rfl, rfl⟩

/-- Witness for C4: steel cantilever, 2 m, 1000 N. -/
theorem cantilever_beam_spec_witness :
    (BeamAnalysisResult.mk (16/5) 24 2000 1000 (125/12) (157/2) (471/4)).max_moment =
        1000 * 2 ∧
    (BeamAnalysisResult.mk (16/5) 24 2000 1000 (125/12) (157/2) (471/4)).max_deflection =
      1000 * 2 ^ 3 / (3 * ((200 : ℚ) * 1000000000) * ((1/20) * (1/10) ^ 3 / 12)) * 1000 ∧
    (BeamAnalysisResult.mk (16/5) 24 2000 1000 (125/12) (157/2) (471/4)).max_shear = 1000 ∧
    (BeamAnalysisResult.mk (16/5) 24 2000 1000 (125/12) (157/2) (471/4)).max_stress =
      (BeamAnalysisResult.mk (16/5) 24 2000 1000 (125/12) (157/2) (471/4)).max_moment *
        ((1/10) / 2) / ((1/20) * (1/10) ^ 3 / 12) / 1000000 ∧
    (BeamAnalysisResult.mk (16/5) 24 2000 1000 (125/12) (157/2) (471/4)).safety_factor =
      250 / (BeamAnalysisResult.mk (16/5) 24 2000 1000 (125/12) (157/2) (471/4)).max_stress :=
  cantilever_beam_spec ⟨Material.steel_a36⟩ 2 1000 (1/20) (1/10)
    (by norm_num) (by norm_num) (by norm_num) _
    (by norm_num [BeamAnalyzer.cantilever_beam, pyDiv, Material.steel_a36, Option.bind])

/-- C3: any result returned by `distributed_load_beam` has moment
`w·L²/8`, deflection (mm) `5·w·L⁴/(384·E·I)·1000`, shear `w·L/2`,
stress `M·(h/2)/I` converted Pa→MPa, and safety factor
`yield_strength / stress`. -/
theorem distributed_load_beam_spec (B : BeamAnalyzer)
    (length load_per_length width height : ℚ)
    (hl : 0 < length) (hw : 0 < width) (hh : 0 < height)
    (r : BeamAnalysisResult)
    (h : B.distributed_load_beam length load_per_length width height = some r) :
    r.max_moment = load_per_length * length ^ 2 / 8 ∧
    r.max_deflection = 5 * load_per_length * length ^ 4 /
      (384 * (B.material.youngs_modulus * 1000000000) * (width * height ^ 3 / 12)) * 1000 ∧
    r.max_shear = load_per_length * length / 2 ∧
    r.max_stress = r.max_moment * (height / 2) / (width * height ^ 3 / 12) / 1000000 ∧
    r.safety_factor = B.material.yield_strength / r.max_stress := by
  simp only [BeamAnalyzer.distributed_load_beam, bind, Option.bind_eq_some, pyDiv_eq_some] at h
  obtain ⟨d, ⟨hden, hd⟩, sp, ⟨hI, hsp⟩, sf, ⟨hst, hsf⟩, hr⟩ := h
  subst hd hsp hsf
  cases hr
  exact ⟨rfl, rfl, rfl, rfl, rfl⟩

/-- Witness for C3: steel beam, 2 m span, 1000 N/m. -/
theorem distributed_load_beam_spec_witness :
    (BeamAnalysisResult.mk (1/4) 6 500 1000 (125/3) (157/2) (471/4)).max_moment =
        1000 * (2 : ℚ) ^ 2 / 8 ∧
    (BeamAnalysisResult.mk (1/4) 6 500 1000 (125/3) (157/2) (471/4)).max_deflection =
      5 * 1000 * (2 : ℚ) ^ 4 /
        (384 * ((200 : ℚ) * 1000000000) * ((1/20) * (1/10) ^ 3 / 12)) * 1000 ∧
    (BeamAnalysisResult.mk (1/4) 6 500 1000 (125/3) (157/2) (471/4)).max_shear =
      1000 * (2 : ℚ) / 2 ∧
    (BeamAnalysisResult.mk (1/4) 6 500 1000 (125/3) (157/2) (471/4)).max_stress =
      (BeamAnalysisResult.mk (1/4) 6 500 1000 (125/3) (157/2) (471/4)).max_moment *
        ((1/10) / 2) / ((1/20) * (1/10) ^ 3 / 12) / 1000000 ∧
    (BeamAnalysisResult.mk (1/4) 6 500 1000 (125/3) (157/2) (471/4)).safety_factor =
      250 / (BeamAnalysisResult.mk (1/4) 6 500 1000 (125/3) (157/2) (471/4)).max_stress :=
  distributed_load_beam_spec ⟨Material.steel_a36⟩ 2 1000 (1/20) (1/10)
    (by norm_num) (by norm_num) (by norm_num) _
    (by norm_num [BeamAnalyzer.distributed_load_beam, pyDiv, Material.steel_a36, Option.bind])

/-- C5: every result returned by any of the three beam operations
satisfies, exactly, `weight = length·width·height·density` and
`cost = weight·cost_per_kg`. -/
theorem beam_weight_cost_identity (B : BeamAnalyzer)
    (length load load_position width height load_per_length : ℚ) :
    (∀ r, B.simply_supported_point_load length load load_position width height = some r →
      r.weight = length * width * height * B.material.density ∧
      r.cost = r.weight * B.material.cost_per_kg) ∧
    (∀ r, B.cantilever_beam length load width height = some r →
      r.weight = length * width * height * B.material.density ∧
      r.cost = r.weight * B.material.cost_per_kg) ∧
    (∀ r, B.distributed_load_beam length load_per_length width height = some r →
      r.weight = length * width * height * B.material.density ∧
      r.cost = r.weight * B.material.cost_per_kg) := by
  refine ⟨fun r h => ?_, fun r h => ?_, fun r h => ?_⟩
  · by_cases hc : |load_position - (length - load_position)| < 1/100 <;>
      simp only [BeamAnalyzer.simply_supported_point_load, bind, hc,
        if_true, if_false, ite_true, ite_false, Option.bind_eq_some, pyDiv_eq_some] at h <;>
      obtain ⟨m, -, d, -, sp, -, s1, -, s2, -, sf, -, hr⟩ := h <;>
      cases hr <;> exact ⟨rfl, rfl⟩
  · simp only [BeamAnalyzer.cantilever_beam, bind, Option.bind_eq_some, pyDiv_eq_some] at h
    obtain ⟨d, -, sp, -, sf, -, hr⟩ := h
    cases hr
    exact ⟨rfl, rfl⟩
  · simp only [BeamAnalyzer.distributed_load_beam, bind, Option.bind_eq_some,
      pyDiv_eq_some] at h
    obtain ⟨d, -, sp, -, sf, -, hr⟩ := h
    cases hr
    exact ⟨rfl, rfl⟩

/-- Witness for C5: the steel point-load scenario. -/
theorem beam_weight_cost_identity_witness :
    (BeamAnalysisResult.mk (1/5) 6 500 500 (125/3) (157/2) (471/4)).weight =
      2 * (1/20) * (1/10) * Material.steel_a36.density ∧
    (BeamAnalysisResult.mk (1/5) 6 500 500 (125/3) (157/2) (471/4)).cost =
      (BeamAnalysisResult.mk (1/5) 6 500 500 (125/3) (157/2) (471/4)).weight *
        Material.steel_a36.cost_per_kg :=
  (beam_weight_cost_identity ⟨Material.steel_a36⟩ 2 1000 1 (1/20) (1/10) 0).1 _
    (by norm_num [BeamAnalyzer.simply_supported_point_load, pyDiv, Material.steel_a36,
      Option.bind])

/-- C6 counterexample: in the documented steel scenario (A36, L = 2 m,
P = 1000 N centered, 0.05 m × 0.1 m section) the computed deflection is
0.2 mm, a full 1.0 mm away from the claimed ≈ 1.2 mm. -/
theorem steel_scenario_deflection_counterexample :
    (BeamAnalyzer.simply_supported_point_load ⟨Material.steel_a36⟩ 2 1000 1
        (1/20) (1/10)).map BeamAnalysisResult.max_deflection = some (1/5) ∧
    ¬ |(1/5 : ℚ) - 12/10| < 1/2 := by
  constructor
  · norm_num [BeamAnalyzer.simply_supported_point_load, pyDiv, Material.steel_a36,
      Option.bind]
  · rw [abs_sub_comm, abs_of_pos] <;> norm_num

/-- C6 amended: the steel scenario returns exactly
`I = 1/240000 ≈ 4.1667e-6 m⁴`, moment 500 N·m, deflection 0.2 mm (not
1.2 mm), stress 6 MPa, safety factor 125/3 ≈ 41.7, weight 78.5 kg, cost
117.75 USD, and `is_safe()` is true. -/
theorem steel_scenario_spec :
    BeamAnalyzer.simply_supported_point_load ⟨Material.steel_a36⟩ 2 1000 1
        (1/20) (1/10) =
      some (BeamAnalysisResult.mk (1/5) 6 500 500 (125/3) (157/2) (471/4)) ∧
    |((1 : ℚ)/20) * (1/10) ^ 3 / 12 - 41667/10^10| < 1/10^10 ∧
    |(125 : ℚ)/3 - 417/10| < 1/20 ∧
    (BeamAnalysisResult.mk (1/5) 6 500 500 (125/3) (157/2) (471/4)).is_safe_default
      = true := by
  refine ⟨?_, ?_, ?_, ?_⟩
  · norm_num [BeamAnalyzer.simply_supported_point_load, pyDiv, Material.steel_a36,
      Option.bind]
  · rw [abs_of_neg] <;> norm_num
  · rw [abs_of_neg] <;> norm_num
  · simp only [BeamAnalysisResult.is_safe_default, BeamAnalysisResult.is_safe,
      decide_eq_true_eq]
    norm_num

/-- C9: `is_safe t` is true iff `safety_factor ≥ t`; the source's default
threshold is 1.5; and an analysis whose safety factor is below 1.5 still
returns a normal result record (it is reported, not rejected). -/
theorem is_safe_spec :
    (∀ (r : BeamAnalysisResult) (t : ℚ), r.is_safe t = true ↔ t ≤ r.safety_factor) ∧
    (∀ r : BeamAnalysisResult, r.is_safe_default = r.is_safe (3/2)) ∧
    ∃ r, BeamAnalyzer.simply_supported_point_load ⟨Material.steel_a36⟩ 2 1000000 1
        (1/20) (1/10) = some r ∧
      r.safety_factor < 3/2 ∧ r.is_safe_default = false := by
  refine ⟨fun r t => ?_, fun r => rfl, ⟨BeamAnalysisResult.mk 200 6000 500000 500000
    (1/24) (157/2) (471/4), ?_, by norm_num, ?_⟩⟩
  · simp [BeamAnalysisResult.is_safe]
  · norm_num [BeamAnalyzer.simply_supported_point_load, pyDiv, Material.steel_a36,
      Option.bind]
  · simp only [BeamAnalysisResult.is_safe_default, BeamAnalysisResult.is_safe,
      decide_eq_false_iff_not]
    norm_num

/-- C10: with strictly positive length, width, height and Young's
modulus, a computed maximum moment of zero makes the bending stress
zero, so the safety-factor division `yield_strength / 0` raises
`ZeroDivisionError` and the operation returns no result.  This happens
for zero load in each of the three operations, and in
`simply_supported_point_load` for a load at either support when the
centered branch is not taken (`|a − b| ≥ 0.01`). -/
theorem zero_moment_division_fault (B : BeamAnalyzer)
    (length load load_position width height : ℚ)
    (hl : 0 < length) (hw : 0 < width) (hh : 0 < height)
    (hE : 0 < B.material.youngs_modulus) :
    B.simply_supported_point_load length 0 load_position width height = none ∧
    B.cantilever_beam length 0 width height = none ∧
    B.distributed_load_beam length 0 width height = none ∧
    (1/100 ≤ length →
      B.simply_supported_point_load length load 0 width height = none) ∧
    (1/100 ≤ length →
      B.simply_supported_point_load length load length width height = none) := by
  have hI : (0 : ℚ) < width * height ^ 3 / 12 := by positivity
  have hL : length ≠ 0 := ne_of_gt hl
  have h48 : (48 : ℚ) * (B.material.youngs_modulus * 1000000000) *
      (width * height ^ 3 / 12) ≠ 0 := by positivity
  have h3 : (3 : ℚ) * (B.material.youngs_modulus * 1000000000) *
      (width * height ^ 3 / 12) * length ≠ 0 := by positivity
  have h384 : (384 : ℚ) * (B.material.youngs_modulus * 1000000000) *
      (width * height ^ 3 / 12) ≠ 0 := by positivity
  have h3' : (3 : ℚ) * (B.material.youngs_modulus * 1000000000) *
      (width * height ^ 3 / 12) ≠ 0 := by positivity
  refine ⟨?_, ?_, ?_, fun hlen => ?_, fun hlen => ?_⟩
  · simp [BeamAnalyzer.simply_supported_point_load, pyDiv, hL, hI.ne', h48, h3]
  · simp [BeamAnalyzer.cantilever_beam, pyDiv, hI.ne', h3']
  · simp [BeamAnalyzer.distributed_load_beam, pyDiv, hI.ne', h384]
  · have habs : |(0 : ℚ) - (length - 0)| = length := by
      rw [zero_sub, sub_zero, abs_neg, abs_of_pos hl]
    have hnc : ¬ |(0 : ℚ) - (length - 0)| < 1/100 := by
      rw [habs]; exact not_lt.mpr hlen
    simp [BeamAnalyzer.simply_supported_point_load, pyDiv, hL, hI.ne', h3, hnc]
  · have habs : |length - (length - length)| = length := by
      rw [sub_self, sub_zero, abs_of_pos hl]
    have hnc : ¬ |length - (length - length)| < 1/100 := by
      rw [habs]; exact not_lt.mpr hlen
    simp [BeamAnalyzer.simply_supported_point_load, pyDiv, hL, hI.ne', h3, hnc]

/-- Witness for C10: concrete faulting inputs on a steel beam. -/
theorem zero_moment_division_fault_witness :
    BeamAnalyzer.simply_supported_point_load ⟨Material.steel_a36⟩ 2 0 1
        (1/20) (1/10) = none ∧
    BeamAnalyzer.cantilever_beam ⟨Material.steel_a36⟩ 2 0 (1/20) (1/10) = none ∧
    BeamAnalyzer.distributed_load_beam ⟨Material.steel_a36⟩ 2 0 (1/20) (1/10) = none ∧
    BeamAnalyzer.simply_supported_point_load ⟨Material.steel_a36⟩ 2 7 0
        (1/20) (1/10) = none ∧
    BeamAnalyzer.simply_supported_point_load ⟨Material.steel_a36⟩ 2 7 2
        (1/20) (1/10) = none := by
  have T := zero_moment_division_fault ⟨Material.steel_a36⟩ 2 7 1 (1/20) (1/10)
    (by norm_num) (by norm_num) (by norm_num)
    (by norm_num [Material.steel_a36])
  exact ⟨T.1, T.2.1, T.2.2.1, T.2.2.2.1 (by norm_num), T.2.2.2.2 (by norm_num)⟩

/-! ## Column analyzer (`ColumnAnalyzer.euler_buckling_load`)

The column computation uses `math.pi` and `math.sqrt`, so it is
embedded over `ℝ` with `Real.pi` and `Real.sqrt`. -/

/-- `ColumnBucklingResult`: the keyed record returned by
`euler_buckling_load` (keys `critical_load_n`, `critical_load_kn`,
`slenderness_ratio`, `end_condition`, `is_long_column`).  The
slenderness-ratio key is modelled by the field `slenderness`, named
after the source's local variable holding it. -/
structure ColumnBucklingResult where
  critical_load_n : ℝ
  critical_load_kn : ℝ
  slenderness : ℝ
  end_condition : String
  is_long_column : Prop

/-- Python float division over ℝ (`ZeroDivisionError` as `none`). -/
noncomputable def pyDivR (x y : ℝ) : Option ℝ :=
  if y = 0 then none else some (x / y)

/-- `math.sqrt`: raises `ValueError` on a negative argument. -/
noncomputable def pySqrt (x : ℝ) : Option ℝ :=
  if x < 0 then none else some (Real.sqrt x)

/-- The effective-length factor lookup
`K_factors.get(end_condition, 1.0)` of `euler_buckling_load`:
a fixed four-entry dict with silent default `1.0`. -/
noncomputable def K_factors (end_condition : String) : ℝ :=
  if end_condition = "pinned-pinned" then 1
  else if end_condition = "fixed-free" then 2
  else if end_condition = "fixed-fixed" then 1/2
  else if end_condition = "fixed-pinned" then 7/10
  else 1

/-- `ColumnAnalyzer`: bound to one material. -/
structure ColumnAnalyzer where
  material : Material

/-- `ColumnAnalyzer.euler_buckling_load(length, width, height,
end_condition)` of `structural.py` (the source defaults `end_condition`
to `"pinned-pinned"`; here the tag is always passed explicitly). -/
noncomputable def ColumnAnalyzer.euler_buckling_load (self : ColumnAnalyzer)
    (length width height : ℝ) (end_condition : String) :
    Option ColumnBucklingResult := do
  let K := K_factors end_condition
  let I_min := min ((width * height ^ 3) / 12) ((height * width ^ 3) / 12)
  let L_e := K * length
  let E := (self.material.youngs_modulus : ℝ) * 1000000000
  let P_cr ← pyDivR (Real.pi ^ 2 * E * I_min) (L_e ^ 2)
  let A := width * height
  let q ← pyDivR I_min A
  let r ← pySqrt q
  let slenderness ← pyDivR L_e r
  return ⟨P_cr, P_cr / 1000, slenderness, end_condition, slenderness > 120⟩

/-- Every effective-length factor is positive. -/
theorem K_factors_pos (end_condition : String) : 0 < K_factors end_condition := by
  unfold K_factors
  split <;> norm_num
  split <;> norm_num
  split <;> norm_num
  split <;> norm_num

/-- Evaluation of `euler_buckling_load` under positive geometry: no
division faults, and each field in closed form. -/
theorem euler_buckling_load_eq (C : ColumnAnalyzer)
    (length width height : ℝ) (end_condition : String)
    (hl : 0 < length) (hw : 0 < width) (hh : 0 < height) :
    C.euler_buckling_load length width height end_condition =
      some ⟨Real.pi ^ 2 * ((C.material.youngs_modulus : ℝ) * 1000000000) *
          (min ((width * height ^ 3) / 12) ((height * width ^ 3) / 12)) /
          (K_factors end_condition * length) ^ 2,
        Real.pi ^ 2 * ((C.material.youngs_modulus : ℝ) * 1000000000) *
          (min ((width * height ^ 3) / 12) ((height * width ^ 3) / 12)) /
          (K_factors end_condition * length) ^ 2 / 1000,
        K_factors end_condition * length /
          Real.sqrt ((min ((width * height ^ 3) / 12) ((height * width ^ 3) / 12)) /
            (width * height)),
        end_condition,
        K_factors end_condition * length /
          Real.sqrt ((min ((width * height ^ 3) / 12) ((height * width ^ 3) / 12)) /
            (width * height)) > 120⟩ := by
  have hK := K_factors_pos end_condition
  have hImin : (0 : ℝ) < min ((width * height ^ 3) / 12) ((height * width ^ 3) / 12) :=
    lt_min (by positivity) (by positivity)
  have hLe : (K_factors end_condition * length) ^ 2 ≠ 0 := by positivity
  have hA : width * height ≠ 0 := by positivity
  have hq : (0 : ℝ) < min ((width * height ^ 3) / 12) ((height * width ^ 3) / 12) /
      (width * height) := by positivity
  have hs : Real.sqrt ((min ((width * height ^ 3) / 12) ((height * width ^ 3) / 12)) /
      (width * height)) ≠ 0 := ne_of_gt (Real.sqrt_pos.mpr hq)
  simp [ColumnAnalyzer.euler_buckling_load, pyDivR, pySqrt, hLe, hA, hs,
    not_lt.mpr hq.le, Option.bind]

/-! ## Claim theorems: column operation -/

/-- C2: for positive geometry and a recognized end condition, the
result has `critical_load_n = π²·E·I_min/L_e²` with
`I_min = min(w·h³/12, h·w³/12)` and `L_e = K·length` (`K` as tabulated),
`slenderness_ratio = L_e / sqrt(I_min/(w·h))`, and `is_long_column`
true iff the slenderness ratio exceeds 120. -/
theorem euler_buckling_load_spec (C : ColumnAnalyzer)
    (length width height : ℝ) (end_condition : String)
    (hl : 0 < length) (hw : 0 < width) (hh : 0 < height)
    (hcond : end_condition = "pinned-pinned" ∨ end_condition = "fixed-free" ∨
      end_condition = "fixed-fixed" ∨ end_condition = "fixed-pinned") :
    ∃ r, C.euler_buckling_load length width height end_condition = some r ∧
      ColumnBucklingResult.critical_load_n r =
        Real.pi ^ 2 * ((C.material.youngs_modulus : ℝ) * 1000000000) *
          (min ((width * height ^ 3) / 12) ((height * width ^ 3) / 12)) /
          ((if end_condition = "pinned-pinned" then (1 : ℝ)
            else if end_condition = "fixed-free" then 2
            else if end_condition = "fixed-fixed" then 1/2 else 7/10) * length) ^ 2 ∧
      ColumnBucklingResult.slenderness r =
        (if end_condition = "pinned-pinned" then (1 : ℝ)
          else if end_condition = "fixed-free" then 2
          else if end_condition = "fixed-fixed" then 1/2 else 7/10) * length /
          Real.sqrt ((min ((width * height ^ 3) / 12) ((height * width ^ 3) / 12)) /
            (width * height)) ∧
      (ColumnBucklingResult.is_long_column r ↔
        ColumnBucklingResult.slenderness r > 120) ∧
      ColumnBucklingResult.end_condition r = end_condition := by
  have hKeq : K_factors end_condition =
      (if end_condition = "pinned-pinned" then (1 : ℝ)
        else if end_condition = "fixed-free" then 2
        else if end_condition = "fixed-fixed" then 1/2 else 7/10) := by
    rcases hcond with h | h | h | h <;> subst h <;> simp [K_factors]
  refine ⟨_, euler_buckling_load_eq C length width height end_condition hl hw hh,
    ?_, ?_, Iff.rfl, rfl⟩
  · rw [← hKeq]
  · rw [← hKeq]

/-- Witness for C2: steel column, 3 m, 0.1 m square, pinned-pinned. -/
theorem euler_buckling_load_spec_witness :
    ∃ r, ColumnAnalyzer.euler_buckling_load ⟨Material.steel_a36⟩ 3 (1/10) (1/10)
        "pinned-pinned" = some r ∧
      ColumnBucklingResult.critical_load_n r =
        Real.pi ^ 2 * ((Material.steel_a36.youngs_modulus : ℝ) * 1000000000) *
          (min ((((1 : ℝ)/10) * ((1 : ℝ)/10) ^ 3) / 12)
            ((((1 : ℝ)/10) * ((1 : ℝ)/10) ^ 3) / 12)) /
          ((if ("pinned-pinned" : String) = "pinned-pinned" then (1 : ℝ)
            else if ("pinned-pinned" : String) = "fixed-free" then 2
            else if ("pinned-pinned" : String) = "fixed-fixed" then 1/2
            else 7/10) * 3) ^ 2 ∧
      ColumnBucklingResult.slenderness r =
        (if ("pinned-pinned" : String) = "pinned-pinned" then (1 : ℝ)
          else if ("pinned-pinned" : String) = "fixed-free" then 2
          else if ("pinned-pinned" : String) = "fixed-fixed" then 1/2
          else 7/10) * 3 /
          Real.sqrt ((min ((((1 : ℝ)/10) * ((1 : ℝ)/10) ^ 3) / 12)
            ((((1 : ℝ)/10) * ((1 : ℝ)/10) ^ 3) / 12)) / ((1/10) * (1/10))) ∧
      (ColumnBucklingResult.is_long_column r ↔
        ColumnBucklingResult.slenderness r > 120) ∧
      ColumnBucklingResult.end_condition r = "pinned-pinned" :=
  euler_buckling_load_spec ⟨Material.steel_a36⟩ 3 (1/10) (1/10) "pinned-pinned"
    (by norm_num) (by norm_num) (by norm_num) (Or.inl rfl)

/-- C8: for an unrecognized end-condition tag, `euler_buckling_load`
behaves exactly as for `"pinned-pinned"` except that the returned
record echoes the input tag; under positive geometry it raises no error
and returns a record whose `end_condition` field is the input tag. -/
theorem euler_unknown_end_condition (C : ColumnAnalyzer)
    (length width height : ℝ) (end_condition : String)
    (h1 : end_condition ≠ "pinned-pinned") (h2 : end_condition ≠ "fixed-free")
    (h3 : end_condition ≠ "fixed-fixed") (h4 : end_condition ≠ "fixed-pinned") :
    C.euler_buckling_load length width height end_condition =
      (C.euler_buckling_load length width height "pinned-pinned").map
        (fun r => ⟨ColumnBucklingResult.critical_load_n r,
          ColumnBucklingResult.critical_load_kn r,
          ColumnBucklingResult.slenderness r, end_condition,
          ColumnBucklingResult.is_long_column r⟩) ∧
    (0 < length → 0 < width → 0 < height →
      ∃ r, C.euler_buckling_load length width height end_condition = some r ∧
        ColumnBucklingResult.end_condition r = end_condition) := by
  have hKeq : K_factors end_condition = K_factors "pinned-pinned" := by
    simp [K_factors, h1, h2, h3, h4]
  constructor
  · simp only [ColumnAnalyzer.euler_buckling_load, hKeq, bind, Option.map_bind,
      Function.comp, Option.map_some', pure]
  · intro hl hw hh
    exact ⟨_, euler_buckling_load_eq C length width height end_condition hl hw hh, rfl⟩

/-- Witness for C8: the unrecognized tag `"free-free"`. -/
theorem euler_unknown_end_condition_witness :
    ColumnAnalyzer.euler_buckling_load ⟨Material.steel_a36⟩ 3 (1/10) (1/10)
        "free-free" =
      (ColumnAnalyzer.euler_buckling_load ⟨Material.steel_a36⟩ 3 (1/10) (1/10)
          "pinned-pinned").map
        (fun r => ⟨ColumnBucklingResult.critical_load_n r,
          ColumnBucklingResult.critical_load_kn r,
          ColumnBucklingResult.slenderness r, "free-free",
          ColumnBucklingResult.is_long_column r⟩) ∧
    ∃ r, ColumnAnalyzer.euler_buckling_load ⟨Material.steel_a36⟩ 3 (1/10) (1/10)
        "free-free" = some r ∧
      ColumnBucklingResult.end_condition r = "free-free" := by
  have T := euler_unknown_end_condition ⟨Material.steel_a36⟩ 3 (1/10) (1/10)
    "free-free" (by decide) (by decide) (by decide) (by decide)
  exact ⟨T.1, T.2 (by norm_num) (by norm_num) (by norm_num)⟩

/-- C7 counterexample: in the documented column scenario (steel A36,
L = 3 m, 0.1 m square, pinned-pinned) the computed critical load is
`π²·5000/27 ≈ 1827.7` kN — more than 1000 kN away from the claimed
≈ 548.3 kN. -/
theorem euler_scenario_kn_counterexample :
    (ColumnAnalyzer.euler_buckling_load ⟨Material.steel_a36⟩ 3 (1/10) (1/10)
        "pinned-pinned").map ColumnBucklingResult.critical_load_kn =
      some (Real.pi ^ 2 * 5000 / 27) ∧
    1000 < |Real.pi ^ 2 * 5000 / 27 - 5483/10| := by
  constructor
  · rw [euler_buckling_load_eq ⟨Material.steel_a36⟩ 3 (1/10) (1/10) "pinned-pinned"
      (by norm_num) (by norm_num) (by norm_num)]
    rw [Option.map_some']
    congr 1
    show Real.pi ^ 2 * ((((200 : ℚ) : ℝ)) * 1000000000) * _ / _ / 1000 = _
    norm_num [K_factors, min_self, Material.steel_a36]
    ring
  · have hpi := Real.pi_gt_d6
    rw [abs_of_pos] <;> nlinarith [hpi]

/-- C7 amended: in the documented column scenario the result has
`I_min = 1/120000 ≈ 8.333e-6 m⁴`, critical load ≈ 1827.7 kN (not
548.3 kN), slenderness ratio ≈ 103.9, and `is_long_column` false. -/
theorem euler_scenario_spec :
    ∃ r, ColumnAnalyzer.euler_buckling_load ⟨Material.steel_a36⟩ 3 (1/10) (1/10)
        "pinned-pinned" = some r ∧
      ColumnBucklingResult.critical_load_kn r = Real.pi ^ 2 * 5000 / 27 ∧
      |Real.pi ^ 2 * 5000 / 27 - 18277/10| < 1/10 ∧
      ColumnBucklingResult.slenderness r = 3 / Real.sqrt (1/1200) ∧
      |3 / Real.sqrt ((1 : ℝ)/1200) - 1039/10| < 1/10 ∧
      (ColumnBucklingResult.is_long_column r ↔ False) ∧
      |min (((1 : ℝ)/10) * (1/10) ^ 3 / 12) (((1 : ℝ)/10) * (1/10) ^ 3 / 12) -
        8333/10 ^ 9| < 1/10 ^ 9 := by
  have hs0 : (0 : ℝ) < Real.sqrt (1/1200) := Real.sqrt_pos.mpr (by norm_num)
  have hs2 : Real.sqrt ((1 : ℝ)/1200) ^ 2 = 1/1200 := Real.sq_sqrt (by norm_num)
  have key : 3 / Real.sqrt ((1 : ℝ)/1200) = 3600 * Real.sqrt (1/1200) := by
    rw [div_eq_iff (ne_of_gt hs0), mul_assoc, ← sq, hs2]
    norm_num
  have hlow : (1443 : ℝ)/50000 < Real.sqrt (1/1200) := by
    nlinarith [hs0, hs2]
  have hhigh : Real.sqrt ((1 : ℝ)/1200) < 1444/50000 := by
    nlinarith [hs0, hs2]
  have hslen_bounds : 103.8 < 3 / Real.sqrt ((1 : ℝ)/1200) ∧
      3 / Real.sqrt ((1 : ℝ)/1200) < 104 := by
    rw [key]
    constructor <;> nlinarith [hlow, hhigh]
  have hslen_eq : K_factors "pinned-pinned" * 3 /
      Real.sqrt ((min (((1 : ℝ)/10) * (1/10) ^ 3 / 12)
        (((1 : ℝ)/10) * ((1 : ℝ)/10) ^ 3 / 12)) / ((1/10) * (1/10))) =
      3 / Real.sqrt (1/1200) := by
    norm_num [K_factors, min_self]
  refine ⟨_, euler_buckling_load_eq ⟨Material.steel_a36⟩ 3 (1/10) (1/10)
    "pinned-pinned" (by norm_num) (by norm_num) (by norm_num), ?_, ?_, ?_, ?_, ?_, ?_⟩
  · show Real.pi ^ 2 * ((((200 : ℚ) : ℝ)) * 1000000000) * _ / _ / 1000 = _
    norm_num [K_factors, min_self, Material.steel_a36]
    ring
  · have h1 := Real.pi_gt_d6
    have h2 := Real.pi_lt_d6
    rw [abs_lt]
    constructor <;> nlinarith [h1, h2]
  · show K_factors "pinned-pinned" * 3 / Real.sqrt (_ / _) = _
    convert hslen_eq using 4
  · rw [abs_lt]
    constructor <;> nlinarith [hslen_bounds.1, hslen_bounds.2]
  · constructor
    · intro hgt
      have hg : K_factors "pinned-pinned" * 3 /
          Real.sqrt ((min (((1 : ℝ)/10) * (1/10) ^ 3 / 12)
            (((1 : ℝ)/10) * ((1 : ℝ)/10) ^ 3 / 12)) / ((1/10) * (1/10))) > 120 := hgt
      rw [hslen_eq] at hg
      linarith [hslen_bounds.2]
    · exact False.elim
  · rw [abs_lt]
    constructor <;> norm_num

end Copilot
